import Mathlib

/-!
Shallow embedding of the offline-first synchronization engine of this
repository (`src/services/syncService.ts` together with the parts of
`src/services/taskService.ts` that the sync cycle calls).  Timestamps are
modelled as naturals, the `tasks` table and the `sync_queue` table as lists
(the queue kept in `created_at` order, as the snapshot query reads it), and
every stateful method as a pure function on an explicit state.  Fresh UUIDs
are threaded in as parameters.
-/

namespace SyncEngine

/-- Synchronization state of a task row (the `sync_status` column). -/
inductive SyncStatusT where
  | pending
  | synced
  | error
deriving DecidableEq

/-- Operation kind of a queue entry. -/
inductive OpKind where
  | create
  | update
  | delete
deriving DecidableEq

/-- One row of the `tasks` table. -/
structure Task where
  id : String
  title : String
  description : String
  completed : Bool
  created_at : Nat
  updated_at : Nat
  is_deleted : Bool
  sync_status : SyncStatusT
  server_id : Option String := none
  last_synced_at : Option Nat := none
deriving DecidableEq

/-- Fields a partial task payload (TypeScript `Partial<Task>`) may carry. -/
structure PartialTask where
  title : Option String := none
  description : Option String := none
  completed : Option Bool := none
  is_deleted : Option Bool := none
  updated_at : Option Nat := none
  server_id : Option String := none
deriving DecidableEq

/-- One row of the `sync_queue` table. -/
structure QueueItem where
  id : String
  task_id : String
  operation : OpKind
  data : PartialTask
  created_at : Nat
  retry_count : Nat
  error_message : Option String := none
deriving DecidableEq

/-- The durable state: the `tasks` table and the `sync_queue` table. -/
structure SyncState where
  tasks : List Task
  queue : List QueueItem
deriving DecidableEq

/-- View of a full task as a partial payload, every field present
(a TypeScript `Task` used where `Partial<Task>` is expected). -/
def toPartialTask (t : Task) : PartialTask :=
  { title := some t.title
    description := some t.description
    completed := some t.completed
    is_deleted := some t.is_deleted
    updated_at := some t.updated_at
    server_id := t.server_id }

/-- TaskService.getTask: `SELECT * FROM tasks WHERE id = ?`, yielding null
when the row is absent or soft-deleted (`if (!row || row.is_deleted)`). -/
def getTask (st : SyncState) (taskId : String) : Option Task :=
  match st.tasks.find? fun t => t.id == taskId with
  | none => none
  | some t => if t.is_deleted then none else some t

/-- TaskService.updateTask: spreads `updates` over the existing task,
restamps `updated_at`, forces `sync_status` to pending, persists the six
columns of its UPDATE statement, and appends an `update` entry to the sync
queue (SyncService.addToSyncQueue).  A missing or soft-deleted task leaves
the state unchanged (the method returns null before writing). -/
def updateTask (st : SyncState) (taskId : String) (updates : PartialTask)
    (now : Nat) (newEntryId : String) : SyncState :=
  match getTask st taskId with
  | none => st
  | some existing =>
    let updatedTask : Task :=
      { existing with
        title := updates.title.getD existing.title
        description := updates.description.getD existing.description
        completed := updates.completed.getD existing.completed
        is_deleted := updates.is_deleted.getD existing.is_deleted
        updated_at := now
        sync_status := SyncStatusT.pending }
    { tasks := st.tasks.map fun t =>
        if t.id == taskId then
          { t with
            title := updatedTask.title
            description := updatedTask.description
            completed := updatedTask.completed
            updated_at := updatedTask.updated_at
            is_deleted := updatedTask.is_deleted
            sync_status := updatedTask.sync_status }
        else t
      queue := st.queue ++
        [{ id := newEntryId, task_id := taskId, operation := OpKind.update
           data := updates, created_at := now, retry_count := 0 }] }

/-- SyncService.resolveConflict: last-write-wins on `updated_at`
(`localTask.updated_at > serverTask.updated_at ? localTask : serverTask`). -/
def resolveConflict (localTask serverTask : Task) : Task :=
  if serverTask.updated_at < localTask.updated_at then localTask else serverTask

/-- JavaScript `serverData?.server_id || null`: absent payload, absent field
and the empty string all collapse to null. -/
def jsTruthyServerId (serverData : Option PartialTask) : Option String :=
  match serverData.bind fun d => d.server_id with
  | some s => if s = "" then none else some s
  | none => none

/-- SQL `COALESCE(provided, server_id)`. -/
def coalesceServerId (provided old : Option String) : Option String :=
  match provided with
  | some s => some s
  | none => old

/-- SyncService.updateSyncStatus: sets `sync_status`, coalesces `server_id`,
stamps `last_synced_at` on the row with the given id; when the status is
`synced` it then deletes every queue entry with that `task_id`. -/
def updateSyncStatus (st : SyncState) (taskId : String) (status : SyncStatusT)
    (serverData : Option PartialTask) (now : Nat) : SyncState :=
  { tasks := st.tasks.map fun t =>
      if t.id == taskId then
        { t with
          sync_status := status
          server_id := coalesceServerId (jsTruthyServerId serverData) t.server_id
          last_synced_at := some now }
      else t
    queue :=
      if status = SyncStatusT.synced then
        st.queue.filter fun it => it.task_id != taskId
      else st.queue }

/-- Effect of the UPDATE statement of SyncService.handleSyncError on one
row: `SET retry_count = retry_count + 1, error_message = ?`. -/
def bumpRetry (errMsg : String) (it : QueueItem) : QueueItem :=
  { it with retry_count := it.retry_count + 1, error_message := some errMsg }

/-- SyncService.handleSyncError, acting on the queue: increments the retry
count of the row with the given id and stores the error text, re-reads the
row, and deletes it when its retry count exceeds 3. -/
def handleSyncErrorQ (itemId : String) (errMsg : String)
    (q : List QueueItem) : List QueueItem :=
  let q1 := q.map fun it =>
    if it.id == itemId then bumpRetry errMsg it else it
  match q1.find? fun it => it.id == itemId with
  | some updated =>
      if 3 < updated.retry_count then q1.filter fun it => it.id != itemId
      else q1
  | none => q1

/-- Outcome status of one dispatched item. -/
inductive OutcomeStatus where
  | success
  | conflict
  | error
deriving DecidableEq

/-- One processed item of a batch response. -/
structure ItemResult where
  client_id : String
  status : OutcomeStatus
  resolved_data : Option Task := none
  error : Option String := none
deriving DecidableEq

/-- One entry of the `errors` list of a SyncResult. -/
structure SyncError where
  task_id : String
  operation : String
  error : String
  timestamp : Nat
deriving DecidableEq

/-- The aggregate result of SyncService.sync. -/
structure SyncResultM where
  success : Bool
  synced_items : Nat
  failed_items : Nat
  errors : List SyncError
deriving DecidableEq

/-- Accumulator of the per-batch loop of SyncService.sync: the durable
state, the fresh-UUID counter, `totalSynced`, `totalFailed`, the `errors`
list, and a ledger of the ids routed to handleSyncError. -/
structure CycleAcc where
  state : SyncState
  uuidCtr : Nat
  synced : Nat
  failed : Nat
  errors : List SyncError
  ledger : List String
deriving DecidableEq

/-- The per-item branch of the loop over `response.processed_items` in
SyncService.sync: `success` settles and counts, `conflict` with resolved
data resolves against the current local task, persists the winner through
TaskService.updateTask, then settles like `success`; `error` counts a
failure, records an error entry and routes the matching batch entry to
handleSyncError.  A `conflict` without resolved data matches no branch. -/
def processItemResult (batch : List QueueItem) (now : Nat) (uuid : Nat → String)
    (acc : CycleAcc) (r : ItemResult) : CycleAcc :=
  match r.status with
  | OutcomeStatus.success =>
      { acc with
        state := updateSyncStatus acc.state r.client_id SyncStatusT.synced
          (r.resolved_data.map toPartialTask) now
        synced := acc.synced + 1 }
  | OutcomeStatus.conflict =>
      match r.resolved_data with
      | some rd =>
          match getTask acc.state r.client_id with
          | some localTask =>
              let resolved := resolveConflict localTask rd
              let st1 := updateTask acc.state localTask.id (toPartialTask resolved)
                now (uuid acc.uuidCtr)
              { acc with
                state := updateSyncStatus st1 r.client_id SyncStatusT.synced
                  (some (toPartialTask rd)) now
                uuidCtr := acc.uuidCtr + 1 }
          | none =>
              { acc with
                state := updateSyncStatus acc.state r.client_id SyncStatusT.synced
                  (some (toPartialTask rd)) now }
      | none => acc
  | OutcomeStatus.error =>
      let errEntry : SyncError :=
        { task_id := r.client_id, operation := "unknown"
          error := r.error.getD "Sync failed", timestamp := now }
      match batch.find? fun b => b.id == r.client_id with
      | some failedItem =>
          { acc with
            failed := acc.failed + 1
            errors := acc.errors ++ [errEntry]
            state := { acc.state with
              queue := handleSyncErrorQ failedItem.id (r.error.getD "Sync error")
                acc.state.queue }
            ledger := acc.ledger ++ [failedItem.id] }
      | none =>
          { acc with failed := acc.failed + 1, errors := acc.errors ++ [errEntry] }

/-- One iteration of the loop over batches in SyncService.sync: a response
is either the list of processed items, or a transport error, in which case
`totalFailed` grows by the batch length and every entry of the batch is
routed to handleSyncError. -/
def processBatch (now : Nat) (uuid : Nat → String) (acc : CycleAcc)
    (p : List QueueItem × Except String (List ItemResult)) : CycleAcc :=
  match p.2 with
  | Except.ok results => results.foldl (processItemResult p.1 now uuid) acc
  | Except.error msg =>
      { acc with
        failed := acc.failed + p.1.length
        state := { acc.state with
          queue := p.1.foldl (fun q it => handleSyncErrorQ it.id msg q)
            acc.state.queue }
        ledger := acc.ledger ++ p.1.map fun it => it.id }

/-- Fuel-indexed form of the batching loop
`for (let i = 0; i < length; i += batchSize) slice(i, i + batchSize)`;
the fuel covers every terminating run (batchSize at least 1). -/
def partitionAux {α : Type} (batchSize : Nat) : Nat → List α → List (List α)
  | 0, _ => []
  | _, [] => []
  | fuel + 1, x :: xs =>
      (x :: xs).take batchSize :: partitionAux batchSize fuel ((x :: xs).drop batchSize)

/-- The batch partition built by SyncService.sync for a positive batch size. -/
def partition {α : Type} (batchSize : Nat) (l : List α) : List (List α) :=
  partitionAux batchSize l.length l

/-- Index of the batching loop of SyncService.sync after a number of
iterations, for an arbitrary (possibly non-positive) parsed batch size. -/
def batchLoopIndex (batchSize : Int) : Nat → Int
  | 0 => 0
  | k + 1 => batchLoopIndex batchSize k + batchSize

/-- SyncService.sync as one pure cycle: the connectivity probe outcome, the
per-batch responses of the remote authority and the fresh-UUID source are
inputs; the result is the final durable state, the SyncResult, and the
ledger of handleSyncError targets.  A closed gate raises, and the outer
catch returns the single global error without touching the state. -/
def sync (st : SyncState) (connectivity : Bool)
    (responses : List (Except String (List ItemResult)))
    (batchSize : Nat) (now : Nat) (uuid : Nat → String) :
    SyncState × SyncResultM × List String :=
  if connectivity then
    if st.queue = [] then
      (st, { success := true, synced_items := 0, failed_items := 0, errors := [] }, [])
    else
      let batches := partition batchSize st.queue
      let acc0 : CycleAcc :=
        { state := st, uuidCtr := 0, synced := 0, failed := 0, errors := [], ledger := [] }
      let acc := (batches.zip responses).foldl (processBatch now uuid) acc0
      (acc.state,
        { success := acc.failed == 0, synced_items := acc.synced
          failed_items := acc.failed, errors := acc.errors },
        acc.ledger)
  else
    (st,
      { success := false, synced_items := 0, failed_items := 0
        errors := [{ task_id := "global", operation := "sync"
                     error := "Server not reachable", timestamp := now }] },
      [])

/-- Concrete local task used by witnesses. -/
def exLocalTask : Task :=
  { id := "t1", title := "local", description := "L", completed := false,
    created_at := 0, updated_at := 10, is_deleted := false,
    sync_status := SyncStatusT.pending }

/-- Concrete remote task version used by witnesses. -/
def exRemoteTask : Task :=
  { id := "t1", title := "remote", description := "R", completed := true,
    created_at := 0, updated_at := 5, is_deleted := false,
    sync_status := SyncStatusT.synced }

/-- Concrete queue entry used by witnesses. -/
def exEntryA : QueueItem :=
  { id := "a", task_id := "t1", operation := OpKind.create, data := {},
    created_at := 0, retry_count := 0 }

/-- Concrete conflict outcome used by witnesses. -/
def exConflictResult : ItemResult :=
  { client_id := "t1", status := OutcomeStatus.conflict,
    resolved_data := some exRemoteTask, error := none }

/-- Concrete one-task one-entry state used by witnesses. -/
def exState : SyncState :=
  { tasks := [exLocalTask], queue := [exEntryA] }

/-! ### Lemmas about the batch partition -/

theorem partitionAux_nil {α : Type} (B fuel : Nat) :
    partitionAux (α := α) B fuel [] = [] := by
  cases fuel <;> rfl

theorem partitionAux_join {α : Type} (B : Nat) (hB : 1 ≤ B) :
    ∀ (fuel : Nat) (l : List α), l.length ≤ fuel → (partitionAux B fuel l).flatten = l := by
  intro fuel
  induction fuel with
  | zero =>
    intro l hl
    have hnil : l = [] := by
      cases l with
      | nil => rfl
      | cons x xs => simp at hl
    subst hnil
    rfl
  | succ n ih =>
    intro l hl
    cases l with
    | nil => rfl
    | cons x xs =>
      have hlen : ((x :: xs).drop B).length ≤ n := by
        rw [List.length_drop]
        simp only [List.length_cons] at hl ⊢
        omega
      simp only [partitionAux, List.flatten_cons]
      rw [ih _ hlen, List.take_append_drop]

theorem partitionAux_length {α : Type} (B : Nat) (hB : 1 ≤ B) :
    ∀ (fuel : Nat) (l : List α), l.length ≤ fuel →
      (partitionAux B fuel l).length = (l.length + B - 1) / B := by
  intro fuel
  induction fuel with
  | zero =>
    intro l hl
    have hnil : l = [] := by
      cases l with
      | nil => rfl
      | cons x xs => simp at hl
    subst hnil
    have h0 : (B - 1) / B = 0 := Nat.div_eq_of_lt (by omega)
    simp [partitionAux, h0]
  | succ n ih =>
    intro l hl
    cases l with
    | nil =>
      have h0 : (B - 1) / B = 0 := Nat.div_eq_of_lt (by omega)
      simp [partitionAux, h0]
    | cons x xs =>
      have hlen : ((x :: xs).drop B).length ≤ n := by
        rw [List.length_drop]
        simp only [List.length_cons] at hl ⊢
        omega
      simp only [partitionAux, List.length_cons]
      rw [ih _ hlen, List.length_drop]
      simp only [List.length_cons]
      by_cases hLB : B ≤ xs.length + 1
      · have e1 : xs.length + 1 - B + B - 1 = xs.length + 1 - 1 := by omega
        have e2 : xs.length + 1 + B - 1 = (xs.length + 1 - 1) + B := by omega
        rw [e1, e2, Nat.add_div_right _ (by omega : 0 < B)]
      · have e1 : xs.length + 1 - B = 0 := by omega
        have e2 : xs.length + 1 + B - 1 = (xs.length + 1 - 1) + B := by omega
        rw [e1, e2, Nat.add_div_right _ (by omega : 0 < B)]
        rw [Nat.div_eq_of_lt (by omega : 0 + B - 1 < B),
          Nat.div_eq_of_lt (by omega : xs.length + 1 - 1 < B)]

theorem partitionAux_sizes {α : Type} (B : Nat) :
    ∀ (fuel : Nat) (l : List α) (b : List α), b ∈ partitionAux B fuel l → b.length ≤ B := by
  intro fuel
  induction fuel with
  | zero =>
    intro l b hb
    simp [partitionAux] at hb
  | succ n ih =>
    intro l b hb
    cases l with
    | nil => simp [partitionAux] at hb
    | cons x xs =>
      simp only [partitionAux, List.mem_cons] at hb
      rcases hb with hb | hb
      · subst hb
        rw [List.length_take]
        omega
      · exact ih _ _ hb

theorem partitionAux_dropLast {α : Type} (B : Nat) :
    ∀ (fuel : Nat) (l : List α) (b : List α),
      b ∈ (partitionAux B fuel l).dropLast → b.length = B := by
  intro fuel
  induction fuel with
  | zero =>
    intro l b hb
    simp [partitionAux] at hb
  | succ n ih =>
    intro l b hb
    cases l with
    | nil => simp [partitionAux] at hb
    | cons x xs =>
      simp only [partitionAux] at hb
      cases hrest : partitionAux B n ((x :: xs).drop B) with
      | nil =>
        rw [hrest] at hb
        simp at hb
      | cons r rs =>
        rw [hrest] at hb
        have hdropne : (x :: xs).drop B ≠ [] := by
          intro hd
          rw [hd, partitionAux_nil] at hrest
          simp at hrest
        have hlen : B ≤ (x :: xs).length := by
          by_contra hle
          push_neg at hle
          exact hdropne (List.drop_eq_nil_of_le (Nat.le_of_lt hle))
        rw [List.dropLast_cons₂] at hb
        rcases List.mem_cons.mp hb with hb | hb
        · subst hb
          rw [List.length_take]
          omega
        · apply ih ((x :: xs).drop B) b
          rw [hrest]
          exact hb

/-! ### Claim theorems (first group) -/

/-- C1: resolveConflict implements last-write-wins on the last-modification
timestamp: when the local timestamp is strictly greater it returns the local
record, and otherwise (including exact equality) it returns the remote
record. -/
theorem C1_resolveConflict_last_write_wins (localTask serverTask : Task) :
    (serverTask.updated_at < localTask.updated_at ∧
      resolveConflict localTask serverTask = localTask) ∨
    (localTask.updated_at ≤ serverTask.updated_at ∧
      resolveConflict localTask serverTask = serverTask) := by
  by_cases h : serverTask.updated_at < localTask.updated_at
  · exact Or.inl ⟨h, by simp [resolveConflict, h]⟩
  · exact Or.inr ⟨Nat.le_of_not_lt h, by simp [resolveConflict, h]⟩

/-- C3: when the connectivity probe reports the remote unreachable, sync
returns success false with exactly one error entry tagged global, and both
the task table and the sync queue are returned completely unmodified. -/
theorem C3_gate_closed_single_global_error (st : SyncState)
    (responses : List (Except String (List ItemResult)))
    (batchSize now : Nat) (uuid : Nat → String) :
    sync st false responses batchSize now uuid =
      (st,
        { success := false, synced_items := 0, failed_items := 0
          errors := [{ task_id := "global", operation := "sync"
                       error := "Server not reachable", timestamp := now }] },
        []) := rfl

/-- C7: for a positive batch size B, the partition has exactly the ceiling
of N divided by B batches (written (N + B - 1) / B), every batch except
possibly the last has size exactly B, no batch exceeds B, and concatenating
the batches in order reproduces the input list. -/
theorem C7_partition_batches {α : Type} (B : Nat) (l : List α) (hB : 1 ≤ B) :
    (partition B l).length = (l.length + B - 1) / B ∧
    (∀ b ∈ (partition B l).dropLast, b.length = B) ∧
    (∀ b ∈ partition B l, b.length ≤ B) ∧
    (partition B l).flatten = l := by
  refine ⟨partitionAux_length B hB l.length l le_rfl, ?_, ?_,
    partitionAux_join B hB l.length l le_rfl⟩
  · intro b hb
    exact partitionAux_dropLast B l.length l b hb
  · intro b hb
    exact partitionAux_sizes B l.length l b hb

/-- Witness for C7 at batch size 2 over a three-element list. -/
theorem C7_witness :
    (partition 2 ([0, 1, 2] : List Nat)).length = (([0, 1, 2] : List Nat).length + 2 - 1) / 2 ∧
    ([0, 1] : List Nat).length = 2 ∧
    (partition 2 ([0, 1, 2] : List Nat)).flatten = [0, 1, 2] :=
  ⟨(C7_partition_batches 2 [0, 1, 2] (by decide)).1,
   (C7_partition_batches 2 [0, 1, 2] (by decide)).2.1 [0, 1] (by decide),
   (C7_partition_batches 2 [0, 1, 2] (by decide)).2.2.2⟩

/-- C8: a batch whose dispatch fails as a whole increments the failure count
by exactly the batch length and routes every entry of the batch, one ledger
update each, through handleSyncError on the queue. -/
theorem C8_transport_failure_counts (now : Nat) (uuid : Nat → String)
    (acc : CycleAcc) (batch : List QueueItem) (msg : String) :
    (processBatch now uuid acc (batch, Except.error msg)).failed
        = acc.failed + batch.length ∧
    (processBatch now uuid acc (batch, Except.error msg)).ledger
        = acc.ledger ++ batch.map (fun it => it.id) ∧
    ((processBatch now uuid acc (batch, Except.error msg)).ledger).length
        = acc.ledger.length + batch.length ∧
    (processBatch now uuid acc (batch, Except.error msg)).state.queue
        = batch.foldl (fun q it => handleSyncErrorQ it.id msg q) acc.state.queue := by
  refine ⟨rfl, rfl, ?_, rfl⟩
  simp [processBatch, List.length_append, List.length_map]

theorem batchLoopIndex_eq (B : Int) : ∀ k : Nat, batchLoopIndex B k = (k : Int) * B := by
  intro k
  induction k with
  | zero => simp [batchLoopIndex]
  | succ n ih =>
    simp only [batchLoopIndex, ih]
    push_cast
    ring

/-- C9: the batching loop index of sync terminates exactly for batch sizes
of at least 1: with a positive batch size the index eventually reaches any
queue length, while with a zero or negative parsed batch size and a
non-empty snapshot the index never advances past its start and stays below
the queue length forever, so the loop never exits. -/
theorem C9_batch_loop_termination (B : Int) (N : Nat) :
    (1 ≤ B → (N : Int) ≤ batchLoopIndex B N) ∧
    (B ≤ 0 → 0 < N →
      ∀ k : Nat, batchLoopIndex B k ≤ 0 ∧ batchLoopIndex B k < (N : Int)) := by
  constructor
  · intro hB
    rw [batchLoopIndex_eq]
    calc (N : Int) = N * 1 := by ring
    _ ≤ N * B := by
        apply mul_le_mul_of_nonneg_left hB (by positivity)
  · intro hB hN k
    rw [batchLoopIndex_eq]
    have h1 : (k : Int) * B ≤ 0 := by
      have h2 := mul_le_mul_of_nonneg_left hB (by positivity : (0 : Int) ≤ (k : Int))
      simpa using h2
    exact ⟨h1, lt_of_le_of_lt h1 (by exact_mod_cast hN)⟩

/-- Witness for C9: batch size 2 covers a queue of length 5 within 5 steps,
and batch size minus one after 7 steps still has not reached length 4. -/
theorem C9_witness :
    ((5 : Nat) : Int) ≤ batchLoopIndex 2 5 ∧
    batchLoopIndex (-1) 7 ≤ 0 ∧ batchLoopIndex (-1) 7 < ((4 : Nat) : Int) :=
  ⟨(C9_batch_loop_termination 2 5).1 (by decide),
   (C9_batch_loop_termination (-1) 4).2 (by decide) (by decide) 7⟩

/-! ### Generic list helpers for rows addressed by a unique id -/

theorem find?_append_cons {α : Type} (p : α → Bool) (pre : List α) (a : α) (post : List α)
    (hpre : ∀ x ∈ pre, p x = false) (ha : p a = true) :
    (pre ++ a :: post).find? p = some a := by
  induction pre with
  | nil =>
    simpa using List.find?_cons_of_pos (l := post) (by simp [ha])
  | cons y ys ih =>
    have hy : p y = false := hpre y (by simp)
    rw [List.cons_append, List.find?_cons_of_neg _ (by simp [hy])]
    exact ih fun x hx => hpre x (by simp [hx])

theorem map_if_id {α : Type} (p : α → Bool) (f : α → α) (l : List α)
    (h : ∀ x ∈ l, p x = false) :
    (l.map fun x => if p x then f x else x) = l := by
  induction l with
  | nil => rfl
  | cons y ys ih =>
    have hy : p y = false := h y (by simp)
    simp only [List.map_cons, hy, Bool.false_eq_true, if_false]
    rw [ih fun x hx => h x (by simp [hx])]

theorem map_append_cons {α : Type} (p : α → Bool) (f : α → α) (pre : List α) (a : α)
    (post : List α) (hpre : ∀ x ∈ pre, p x = false) (hpost : ∀ x ∈ post, p x = false)
    (ha : p a = true) :
    ((pre ++ a :: post).map fun x => if p x then f x else x) = pre ++ f a :: post := by
  rw [List.map_append, List.map_cons, map_if_id p f pre hpre, map_if_id p f post hpost]
  simp [ha]

theorem filter_append_cons {α : Type} (p : α → Bool) (pre : List α) (a : α) (post : List α)
    (hpre : ∀ x ∈ pre, p x = true) (hpost : ∀ x ∈ post, p x = true) (ha : p a = false) :
    (pre ++ a :: post).filter p = pre ++ post := by
  have h1 : pre.filter p = pre := List.filter_eq_self.mpr fun x hx => by simp [hpre x hx]
  have h2 : post.filter p = post := List.filter_eq_self.mpr fun x hx => by simp [hpost x hx]
  rw [List.filter_append, h1, List.filter_cons, if_neg (by simp [ha]), h2]

/-! ### Single steps of the retry ledger -/

theorem handleSyncErrorQ_step_keep (pre post : List QueueItem) (e : QueueItem) (err : String)
    (hpre : ∀ x ∈ pre, x.id ≠ e.id) (hpost : ∀ x ∈ post, x.id ≠ e.id)
    (hr : e.retry_count + 1 ≤ 3) :
    handleSyncErrorQ e.id err (pre ++ e :: post) = pre ++ bumpRetry err e :: post := by
  have hmap : ((pre ++ e :: post).map fun it =>
      if it.id == e.id then bumpRetry err it else it) = pre ++ bumpRetry err e :: post :=
    map_append_cons (fun it => it.id == e.id) (bumpRetry err) pre e post
      (fun x hx => beq_eq_false_iff_ne.mpr (hpre x hx))
      (fun x hx => beq_eq_false_iff_ne.mpr (hpost x hx))
      (beq_self_eq_true e.id)
  have hfind : ((pre ++ bumpRetry err e :: post).find? fun it => it.id == e.id)
      = some (bumpRetry err e) :=
    find?_append_cons (fun it => it.id == e.id) pre (bumpRetry err e) post
      (fun x hx => beq_eq_false_iff_ne.mpr (hpre x hx))
      (beq_self_eq_true e.id)
  have hretry : (bumpRetry err e).retry_count = e.retry_count + 1 := rfl
  simp only [handleSyncErrorQ, hmap, hfind]
  rw [hretry, if_neg (by omega)]

theorem handleSyncErrorQ_step_drop (pre post : List QueueItem) (e : QueueItem) (err : String)
    (hpre : ∀ x ∈ pre, x.id ≠ e.id) (hpost : ∀ x ∈ post, x.id ≠ e.id)
    (hr : 3 ≤ e.retry_count) :
    handleSyncErrorQ e.id err (pre ++ e :: post) = pre ++ post := by
  have hmap : ((pre ++ e :: post).map fun it =>
      if it.id == e.id then bumpRetry err it else it) = pre ++ bumpRetry err e :: post :=
    map_append_cons (fun it => it.id == e.id) (bumpRetry err) pre e post
      (fun x hx => beq_eq_false_iff_ne.mpr (hpre x hx))
      (fun x hx => beq_eq_false_iff_ne.mpr (hpost x hx))
      (beq_self_eq_true e.id)
  have hfind : ((pre ++ bumpRetry err e :: post).find? fun it => it.id == e.id)
      = some (bumpRetry err e) :=
    find?_append_cons (fun it => it.id == e.id) pre (bumpRetry err e) post
      (fun x hx => beq_eq_false_iff_ne.mpr (hpre x hx))
      (beq_self_eq_true e.id)
  have hretry : (bumpRetry err e).retry_count = e.retry_count + 1 := rfl
  simp only [handleSyncErrorQ, hmap, hfind]
  rw [hretry, if_pos (by omega)]
  exact filter_append_cons (fun it => it.id != e.id) pre (bumpRetry err e) post
    (fun x hx => by simp [hpre x hx])
    (fun x hx => by simp [hpost x hx])
    (by simp [bumpRetry])

theorem handleSyncErrorQ_absent (i err : String) (q : List QueueItem)
    (h : ∀ x ∈ q, x.id ≠ i) : handleSyncErrorQ i err q = q := by
  have hmap : (q.map fun it => if it.id == i then bumpRetry err it else it) = q :=
    map_if_id (fun it => it.id == i) (bumpRetry err) q
      (fun x hx => beq_eq_false_iff_ne.mpr (h x hx))
  have hfind : (q.find? fun it => it.id == i) = none :=
    List.find?_eq_none.mpr fun x hx => by simp [h x hx]
  simp only [handleSyncErrorQ, hmap, hfind]

theorem handleSyncErrorQ_iterate_absent (i err : String) (q : List QueueItem)
    (h : ∀ x ∈ q, x.id ≠ i) : ∀ m : Nat, (handleSyncErrorQ i err)^[m] q = q := by
  intro m
  induction m with
  | zero => rfl
  | succ n ih => rw [Function.iterate_succ_apply, handleSyncErrorQ_absent i err q h, ih]

/-- C4: starting from retry count 0, each recorded failure increments the
retry count of the entry and stores the error text; after the first three
failures the entry is still in the queue with the accumulated count, and
the fourth failure (maxRetries plus one, with maximum 3) removes it
permanently: every later snapshot of the queue no longer contains it. -/
theorem C4_retry_increment_and_expiry (pre post : List QueueItem) (e : QueueItem)
    (err : String)
    (hpre : ∀ x ∈ pre, x.id ≠ e.id) (hpost : ∀ x ∈ post, x.id ≠ e.id)
    (h0 : e.retry_count = 0) :
    (∀ k : Nat, 1 ≤ k → k ≤ 3 →
      (handleSyncErrorQ e.id err)^[k] (pre ++ e :: post)
        = pre ++ { e with retry_count := k, error_message := some err } :: post) ∧
    (∀ k : Nat, 4 ≤ k →
      (handleSyncErrorQ e.id err)^[k] (pre ++ e :: post) = pre ++ post) := by
  obtain ⟨i, tid, op, d, c, rc, em⟩ := e
  simp only at h0 hpre hpost ⊢
  subst h0
  have s1 : handleSyncErrorQ i err (pre ++ QueueItem.mk i tid op d c 0 em :: post)
      = pre ++ QueueItem.mk i tid op d c 1 (some err) :: post :=
    handleSyncErrorQ_step_keep pre post (QueueItem.mk i tid op d c 0 em) err
      hpre hpost (by simp)
  have s2 : handleSyncErrorQ i err (pre ++ QueueItem.mk i tid op d c 1 (some err) :: post)
      = pre ++ QueueItem.mk i tid op d c 2 (some err) :: post :=
    handleSyncErrorQ_step_keep pre post (QueueItem.mk i tid op d c 1 (some err)) err
      hpre hpost (by simp)
  have s3 : handleSyncErrorQ i err (pre ++ QueueItem.mk i tid op d c 2 (some err) :: post)
      = pre ++ QueueItem.mk i tid op d c 3 (some err) :: post :=
    handleSyncErrorQ_step_keep pre post (QueueItem.mk i tid op d c 2 (some err)) err
      hpre hpost (by simp)
  have s4 : handleSyncErrorQ i err (pre ++ QueueItem.mk i tid op d c 3 (some err) :: post)
      = pre ++ post :=
    handleSyncErrorQ_step_drop pre post (QueueItem.mk i tid op d c 3 (some err)) err
      hpre hpost (by simp)
  constructor
  · intro k hk1 hk3
    interval_cases k
    · rw [Function.iterate_one, s1]
    · have h2 : (handleSyncErrorQ i err)^[2] (pre ++ QueueItem.mk i tid op d c 0 em :: post)
          = handleSyncErrorQ i err (handleSyncErrorQ i err
            (pre ++ QueueItem.mk i tid op d c 0 em :: post)) := rfl
      rw [h2, s1, s2]
    · have h3 : (handleSyncErrorQ i err)^[3] (pre ++ QueueItem.mk i tid op d c 0 em :: post)
          = handleSyncErrorQ i err (handleSyncErrorQ i err (handleSyncErrorQ i err
            (pre ++ QueueItem.mk i tid op d c 0 em :: post))) := rfl
      rw [h3, s1, s2, s3]
  · intro k hk4
    obtain ⟨m, rfl⟩ : ∃ m, k = m + 4 := ⟨k - 4, by omega⟩
    rw [Function.iterate_add_apply]
    have h4 : (handleSyncErrorQ i err)^[4] (pre ++ QueueItem.mk i tid op d c 0 em :: post)
        = handleSyncErrorQ i err (handleSyncErrorQ i err (handleSyncErrorQ i err
          (handleSyncErrorQ i err (pre ++ QueueItem.mk i tid op d c 0 em :: post)))) := rfl
    rw [h4, s1, s2, s3, s4]
    exact handleSyncErrorQ_iterate_absent i err (pre ++ post)
      (fun x hx => by
        rcases List.mem_append.mp hx with hx | hx
        · exact hpre x hx
        · exact hpost x hx) m

/-- Witness for C4: a single queue entry reaches retry count 2 after two
failures and is gone after five failures. -/
theorem C4_witness :
    (handleSyncErrorQ "q1" "boom")^[2]
        ([] ++ ({ id := "q1", task_id := "t1", operation := OpKind.create, data := {},
                  created_at := 0, retry_count := 0 } : QueueItem) :: []) =
      [] ++ ({ id := "q1", task_id := "t1", operation := OpKind.create, data := {},
               created_at := 0, retry_count := 2,
               error_message := some "boom" } : QueueItem) :: [] ∧
    (handleSyncErrorQ "q1" "boom")^[5]
        ([] ++ ({ id := "q1", task_id := "t1", operation := OpKind.create, data := {},
                  created_at := 0, retry_count := 0 } : QueueItem) :: []) = [] ++ [] :=
  ⟨(C4_retry_increment_and_expiry [] []
      { id := "q1", task_id := "t1", operation := OpKind.create, data := {},
        created_at := 0, retry_count := 0 } "boom"
      (by simp) (by simp) rfl).1 2 (by decide) (by decide),
   (C4_retry_increment_and_expiry [] []
      { id := "q1", task_id := "t1", operation := OpKind.create, data := {},
        created_at := 0, retry_count := 0 } "boom"
      (by simp) (by simp) rfl).2 5 (by decide)⟩

/-- C5: settling a record as success sets its synchronization state to
synced, stamps the last-synchronized timestamp, sets the remote identifier
when the outcome provides a non-empty one and keeps the existing remote
identifier when the outcome provides none, and removes every queue entry
targeting that record, not only the entry just processed. -/
theorem C5_settle_success_record_scoped (st : SyncState) (taskId : String)
    (sd : Option PartialTask) (now : Nat) (t : Task)
    (ht : t ∈ st.tasks) (hid : t.id = taskId) :
    (∀ s : String, (sd.bind fun d => d.server_id) = some s → s ≠ "" →
      ({ t with sync_status := SyncStatusT.synced, server_id := some s,
                last_synced_at := some now } : Task)
        ∈ (updateSyncStatus st taskId SyncStatusT.synced sd now).tasks) ∧
    ((sd.bind fun d => d.server_id) = none →
      ({ t with sync_status := SyncStatusT.synced, server_id := t.server_id,
                last_synced_at := some now } : Task)
        ∈ (updateSyncStatus st taskId SyncStatusT.synced sd now).tasks) ∧
    (updateSyncStatus st taskId SyncStatusT.synced sd now).queue
        = st.queue.filter (fun it => it.task_id != taskId) ∧
    (∀ it ∈ (updateSyncStatus st taskId SyncStatusT.synced sd now).queue,
      it.task_id ≠ taskId) := by
  have hft : ({ t with sync_status := SyncStatusT.synced,
                       server_id := coalesceServerId (jsTruthyServerId sd) t.server_id,
                       last_synced_at := some now } : Task)
      ∈ (updateSyncStatus st taskId SyncStatusT.synced sd now).tasks := by
    exact List.mem_map.mpr ⟨t, ht, if_pos (by simp [hid])⟩
  have hq : (updateSyncStatus st taskId SyncStatusT.synced sd now).queue
      = st.queue.filter (fun it => it.task_id != taskId) := by
    simp [updateSyncStatus]
  refine ⟨?_, ?_, hq, ?_⟩
  · intro s hs hne
    have hco : coalesceServerId (jsTruthyServerId sd) t.server_id = some s := by
      simp [jsTruthyServerId, coalesceServerId, hs, hne]
    rw [hco] at hft
    exact hft
  · intro hnone
    have hco : coalesceServerId (jsTruthyServerId sd) t.server_id = t.server_id := by
      simp [jsTruthyServerId, coalesceServerId, hnone]
    rw [hco] at hft
    exact hft
  · intro it hit
    rw [hq] at hit
    exact bne_iff_ne.mp (List.mem_filter.mp hit).2

/-- Witness for C5: one task, a provided remote identifier, and a queue
holding one entry for the settled record and one for another record. -/
theorem C5_witness :
    ({ id := "t1", title := "a", description := "", completed := false, created_at := 0,
       updated_at := 0, is_deleted := false, sync_status := SyncStatusT.synced,
       server_id := some "srv1", last_synced_at := some 9 } : Task)
      ∈ (updateSyncStatus
          { tasks := [{ id := "t1", title := "a", description := "", completed := false,
                        created_at := 0, updated_at := 0, is_deleted := false,
                        sync_status := SyncStatusT.pending }]
            queue := [{ id := "a", task_id := "t1", operation := OpKind.create, data := {},
                        created_at := 0, retry_count := 0 },
                      { id := "b", task_id := "t2", operation := OpKind.update, data := {},
                        created_at := 1, retry_count := 0 }] }
          "t1" SyncStatusT.synced (some { server_id := some "srv1" }) 9).tasks ∧
    (updateSyncStatus
          { tasks := [{ id := "t1", title := "a", description := "", completed := false,
                        created_at := 0, updated_at := 0, is_deleted := false,
                        sync_status := SyncStatusT.pending }]
            queue := [{ id := "a", task_id := "t1", operation := OpKind.create, data := {},
                        created_at := 0, retry_count := 0 },
                      { id := "b", task_id := "t2", operation := OpKind.update, data := {},
                        created_at := 1, retry_count := 0 }] }
          "t1" SyncStatusT.synced (some { server_id := some "srv1" }) 9).queue
      = List.filter (fun it => it.task_id != "t1")
          [{ id := "a", task_id := "t1", operation := OpKind.create, data := {},
             created_at := 0, retry_count := 0 },
           { id := "b", task_id := "t2", operation := OpKind.update, data := {},
             created_at := 1, retry_count := 0 }] :=
  ⟨(C5_settle_success_record_scoped
      { tasks := [{ id := "t1", title := "a", description := "", completed := false,
                    created_at := 0, updated_at := 0, is_deleted := false,
                    sync_status := SyncStatusT.pending }]
        queue := [{ id := "a", task_id := "t1", operation := OpKind.create, data := {},
                    created_at := 0, retry_count := 0 },
                  { id := "b", task_id := "t2", operation := OpKind.update, data := {},
                    created_at := 1, retry_count := 0 }] }
      "t1" (some { server_id := some "srv1" }) 9
      { id := "t1", title := "a", description := "", completed := false, created_at := 0,
        updated_at := 0, is_deleted := false, sync_status := SyncStatusT.pending }
      (by decide) rfl).1 "srv1" rfl (by decide),
   (C5_settle_success_record_scoped
      { tasks := [{ id := "t1", title := "a", description := "", completed := false,
                    created_at := 0, updated_at := 0, is_deleted := false,
                    sync_status := SyncStatusT.pending }]
        queue := [{ id := "a", task_id := "t1", operation := OpKind.create, data := {},
                    created_at := 0, retry_count := 0 },
                  { id := "b", task_id := "t2", operation := OpKind.update, data := {},
                    created_at := 1, retry_count := 0 }] }
      "t1" (some { server_id := some "srv1" }) 9
      { id := "t1", title := "a", description := "", completed := false, created_at := 0,
        updated_at := 0, is_deleted := false, sync_status := SyncStatusT.pending }
      (by decide) rfl).2.2.1⟩

/-- C6: settling the same record as success twice in a row is idempotent:
after the second settle every task row carrying that identifier is synced
and the queue holds no entry targeting that record. -/
theorem C6_settle_success_idempotent (st : SyncState) (taskId : String)
    (sd sd2 : Option PartialTask) (now now2 : Nat) :
    (∀ t ∈ (updateSyncStatus (updateSyncStatus st taskId SyncStatusT.synced sd now)
        taskId SyncStatusT.synced sd2 now2).tasks,
      t.id = taskId → t.sync_status = SyncStatusT.synced) ∧
    (∀ it ∈ (updateSyncStatus (updateSyncStatus st taskId SyncStatusT.synced sd now)
        taskId SyncStatusT.synced sd2 now2).queue,
      it.task_id ≠ taskId) := by
  constructor
  · intro t hmem hidt
    simp only [updateSyncStatus] at hmem
    rcases List.mem_map.mp hmem with ⟨t0, ht0, heq⟩
    by_cases h : t0.id == taskId
    · rw [if_pos h] at heq
      rw [← heq]
    · rw [if_neg h] at heq
      subst heq
      exact absurd hidt (by simpa using h)
  · intro it hit
    have hq : (updateSyncStatus (updateSyncStatus st taskId SyncStatusT.synced sd now)
        taskId SyncStatusT.synced sd2 now2).queue
        = (updateSyncStatus st taskId SyncStatusT.synced sd now).queue.filter
            (fun it => it.task_id != taskId) := by
      simp [updateSyncStatus]
    rw [hq] at hit
    exact bne_iff_ne.mp (List.mem_filter.mp hit).2

/-- Witness for C6: after two successive success settles of the same
record, the settled row is synced and the surviving queue entry targets the
other record. -/
theorem C6_witness :
    ({ id := "t1", title := "a", description := "", completed := false, created_at := 0,
       updated_at := 0, is_deleted := false, sync_status := SyncStatusT.synced,
       server_id := none, last_synced_at := some 6 } : Task).sync_status
        = SyncStatusT.synced ∧
    ({ id := "b", task_id := "t2", operation := OpKind.update, data := {},
       created_at := 1, retry_count := 0 } : QueueItem).task_id ≠ "t1" :=
  ⟨(C6_settle_success_idempotent
      { tasks := [{ id := "t1", title := "a", description := "", completed := false,
                    created_at := 0, updated_at := 0, is_deleted := false,
                    sync_status := SyncStatusT.pending }]
        queue := [{ id := "a", task_id := "t1", operation := OpKind.create, data := {},
                    created_at := 0, retry_count := 0 },
                  { id := "b", task_id := "t2", operation := OpKind.update, data := {},
                    created_at := 1, retry_count := 0 }] }
      "t1" none none 5 6).1
      { id := "t1", title := "a", description := "", completed := false, created_at := 0,
        updated_at := 0, is_deleted := false, sync_status := SyncStatusT.synced,
        server_id := none, last_synced_at := some 6 }
      (by decide) rfl,
   (C6_settle_success_idempotent
      { tasks := [{ id := "t1", title := "a", description := "", completed := false,
                    created_at := 0, updated_at := 0, is_deleted := false,
                    sync_status := SyncStatusT.pending }]
        queue := [{ id := "a", task_id := "t1", operation := OpKind.create, data := {},
                    created_at := 0, retry_count := 0 },
                  { id := "b", task_id := "t2", operation := OpKind.update, data := {},
                    created_at := 1, retry_count := 0 }] }
      "t1" none none 5 6).2
      { id := "b", task_id := "t2", operation := OpKind.update, data := {},
        created_at := 1, retry_count := 0 }
      (by decide)⟩

/-- C2: a dispatched conflict outcome carrying resolved remote data, for a
record present and not soft-deleted in the local store, resolves the
conflict between the current local record and the remote record, persists
the content of the winning record, and then performs the same settlement as a success
outcome: the record row ends synced with the last-synchronized stamp, and
every queue entry for the record is removed, including the entry that
TaskService.updateTask itself enqueues while persisting the winner. -/
theorem C2_conflict_outcome_settles_as_success
    (batch : List QueueItem) (now : Nat) (uuid : Nat → String) (acc : CycleAcc)
    (cid : String) (rd : Task) (errO : Option String)
    (pre post : List Task) (lt : Task)
    (hstate : acc.state.tasks = pre ++ lt :: post)
    (hpre : ∀ x ∈ pre, x.id ≠ cid) (hpost : ∀ x ∈ post, x.id ≠ cid)
    (hid : lt.id = cid) (hdel : lt.is_deleted = false) :
    (processItemResult batch now uuid acc
        { client_id := cid, status := OutcomeStatus.conflict,
          resolved_data := some rd, error := errO }).state.tasks
      = pre ++
        ({ lt with
           title := (resolveConflict lt rd).title,
           description := (resolveConflict lt rd).description,
           completed := (resolveConflict lt rd).completed,
           is_deleted := (resolveConflict lt rd).is_deleted,
           updated_at := now,
           sync_status := SyncStatusT.synced,
           server_id := coalesceServerId (jsTruthyServerId (some (toPartialTask rd)))
             lt.server_id,
           last_synced_at := some now } : Task) :: post ∧
    (processItemResult batch now uuid acc
        { client_id := cid, status := OutcomeStatus.conflict,
          resolved_data := some rd, error := errO }).state.queue
      = acc.state.queue.filter (fun it => it.task_id != cid) := by
  have hfind : acc.state.tasks.find? (fun t => t.id == cid) = some lt := by
    rw [hstate]
    exact find?_append_cons _ pre lt post
      (fun x hx => beq_eq_false_iff_ne.mpr (hpre x hx)) (by simp [hid])
  have hget : getTask acc.state cid = some lt := by
    simp [getTask, hfind, hdel]
  have hget2 : getTask acc.state lt.id = some lt := by
    rw [hid]
    exact hget
  constructor
  · simp only [processItemResult, hget, hget2, updateSyncStatus, updateTask, toPartialTask]
    rw [hstate]
    exact Eq.trans
      (congrArg
        (List.map (fun t : Task =>
          if t.id == cid then
            { t with sync_status := SyncStatusT.synced,
                     server_id := coalesceServerId
                       (jsTruthyServerId (some (toPartialTask rd))) t.server_id,
                     last_synced_at := some now }
          else t))
        (map_append_cons (fun t : Task => t.id == lt.id)
          (fun t : Task =>
            { t with title := (resolveConflict lt rd).title,
                     description := (resolveConflict lt rd).description,
                     completed := (resolveConflict lt rd).completed,
                     updated_at := now,
                     is_deleted := (resolveConflict lt rd).is_deleted,
                     sync_status := SyncStatusT.pending })
          pre lt post
          (fun x hx => beq_eq_false_iff_ne.mpr (by rw [hid]; exact hpre x hx))
          (fun x hx => beq_eq_false_iff_ne.mpr (by rw [hid]; exact hpost x hx))
          (beq_self_eq_true lt.id)))
      (Eq.trans
        (map_append_cons (fun t : Task => t.id == cid)
          (fun t : Task =>
            { t with sync_status := SyncStatusT.synced,
                     server_id := coalesceServerId
                       (jsTruthyServerId (some (toPartialTask rd))) t.server_id,
                     last_synced_at := some now })
          pre _ post
          (fun x hx => beq_eq_false_iff_ne.mpr (hpre x hx))
          (fun x hx => beq_eq_false_iff_ne.mpr (hpost x hx))
          (by simp [hid]))
        rfl)
  · simp only [processItemResult, hget, hget2, updateSyncStatus, updateTask]
    rw [if_pos trivial, List.filter_append]
    simp [hid]

/-- Witness for C2: a remote record with the older timestamp loses to the
local record; the settled row keeps the local content, turns synced, takes
the remote identifier, and the queue entry for the record disappears. -/
theorem C2_witness :
    (processItemResult [] 99 (fun _ => "u0")
        { state := { tasks := [{ id := "t1", title := "local", description := "L",
                                 completed := false, created_at := 0, updated_at := 10,
                                 is_deleted := false, sync_status := SyncStatusT.pending }]
                     queue := [{ id := "a", task_id := "t1", operation := OpKind.create,
                                 data := {}, created_at := 0, retry_count := 0 },
                               { id := "b", task_id := "t2", operation := OpKind.update,
                                 data := {}, created_at := 1, retry_count := 0 }] }
          uuidCtr := 0, synced := 0, failed := 0, errors := [], ledger := [] }
        { client_id := "t1", status := OutcomeStatus.conflict,
          resolved_data := some { id := "t1", title := "remote", description := "R",
                                  completed := true, created_at := 0, updated_at := 5,
                                  is_deleted := false, sync_status := SyncStatusT.synced,
                                  server_id := some "srv9" },
          error := none }).state.tasks
      = [{ id := "t1", title := "local", description := "L", completed := false,
           created_at := 0, updated_at := 99, is_deleted := false,
           sync_status := SyncStatusT.synced, server_id := some "srv9",
           last_synced_at := some 99 }] ∧
    (processItemResult [] 99 (fun _ => "u0")
        { state := { tasks := [{ id := "t1", title := "local", description := "L",
                                 completed := false, created_at := 0, updated_at := 10,
                                 is_deleted := false, sync_status := SyncStatusT.pending }]
                     queue := [{ id := "a", task_id := "t1", operation := OpKind.create,
                                 data := {}, created_at := 0, retry_count := 0 },
                               { id := "b", task_id := "t2", operation := OpKind.update,
                                 data := {}, created_at := 1, retry_count := 0 }] }
          uuidCtr := 0, synced := 0, failed := 0, errors := [], ledger := [] }
        { client_id := "t1", status := OutcomeStatus.conflict,
          resolved_data := some { id := "t1", title := "remote", description := "R",
                                  completed := true, created_at := 0, updated_at := 5,
                                  is_deleted := false, sync_status := SyncStatusT.synced,
                                  server_id := some "srv9" },
          error := none }).state.queue
      = List.filter (fun it => it.task_id != "t1")
          [{ id := "a", task_id := "t1", operation := OpKind.create, data := {},
             created_at := 0, retry_count := 0 },
           { id := "b", task_id := "t2", operation := OpKind.update, data := {},
             created_at := 1, retry_count := 0 }] :=
  C2_conflict_outcome_settles_as_success [] 99 (fun _ => "u0")
    { state := { tasks := [{ id := "t1", title := "local", description := "L",
                             completed := false, created_at := 0, updated_at := 10,
                             is_deleted := false, sync_status := SyncStatusT.pending }]
                 queue := [{ id := "a", task_id := "t1", operation := OpKind.create,
                             data := {}, created_at := 0, retry_count := 0 },
                           { id := "b", task_id := "t2", operation := OpKind.update,
                             data := {}, created_at := 1, retry_count := 0 }] }
      uuidCtr := 0, synced := 0, failed := 0, errors := [], ledger := [] }
    "t1"
    { id := "t1", title := "remote", description := "R", completed := true,
      created_at := 0, updated_at := 5, is_deleted := false,
      sync_status := SyncStatusT.synced, server_id := some "srv9" }
    none [] []
    { id := "t1", title := "local", description := "L", completed := false,
      created_at := 0, updated_at := 10, is_deleted := false,
      sync_status := SyncStatusT.pending }
    rfl (by simp) (by simp) rfl rfl

/-! ### Conflict outcomes leave the cycle counters untouched -/

theorem processItemResult_conflict_counters (batch : List QueueItem) (now : Nat)
    (uuid : Nat → String) (acc : CycleAcc) (r : ItemResult)
    (h : r.status = OutcomeStatus.conflict) :
    (processItemResult batch now uuid acc r).synced = acc.synced ∧
    (processItemResult batch now uuid acc r).failed = acc.failed ∧
    (processItemResult batch now uuid acc r).errors = acc.errors := by
  obtain ⟨rcid, rst, rdata, rerr⟩ := r
  simp only at h
  subst h
  cases rdata with
  | none => exact ⟨rfl, rfl, rfl⟩
  | some rd =>
    cases hg : getTask acc.state rcid with
    | none =>
      simp [processItemResult, hg]
    | some ltask =>
      simp [processItemResult, hg]

theorem foldl_items_conflict (batch : List QueueItem) (now : Nat) (uuid : Nat → String) :
    ∀ (rs : List ItemResult) (acc : CycleAcc),
      (∀ r ∈ rs, r.status = OutcomeStatus.conflict) →
      ((rs.foldl (processItemResult batch now uuid) acc).synced = acc.synced ∧
       (rs.foldl (processItemResult batch now uuid) acc).failed = acc.failed ∧
       (rs.foldl (processItemResult batch now uuid) acc).errors = acc.errors) := by
  intro rs
  induction rs with
  | nil =>
    intro acc h
    exact ⟨rfl, rfl, rfl⟩
  | cons r rs ih =>
    intro acc h
    simp only [List.foldl_cons]
    have h1 := processItemResult_conflict_counters batch now uuid acc r (h r (by simp))
    have h2 := ih (processItemResult batch now uuid acc r) fun x hx => h x (by simp [hx])
    exact ⟨h2.1.trans h1.1, h2.2.1.trans h1.2.1, h2.2.2.trans h1.2.2⟩

theorem foldl_batches_conflict (now : Nat) (uuid : Nat → String) :
    ∀ (ps : List (List QueueItem × Except String (List ItemResult))) (acc : CycleAcc),
      (∀ p ∈ ps, ∃ rs, p.2 = Except.ok rs ∧ ∀ r ∈ rs, r.status = OutcomeStatus.conflict) →
      ((ps.foldl (processBatch now uuid) acc).synced = acc.synced ∧
       (ps.foldl (processBatch now uuid) acc).failed = acc.failed ∧
       (ps.foldl (processBatch now uuid) acc).errors = acc.errors) := by
  intro ps
  induction ps with
  | nil =>
    intro acc h
    exact ⟨rfl, rfl, rfl⟩
  | cons p ps ih =>
    intro acc h
    obtain ⟨rs, hok, hconf⟩ := h p (by simp)
    simp only [List.foldl_cons]
    have hpb : processBatch now uuid acc p = rs.foldl (processItemResult p.1 now uuid) acc := by
      simp only [processBatch, hok]
    rw [hpb]
    have h1 := foldl_items_conflict p.1 now uuid rs acc hconf
    have h2 := ih (rs.foldl (processItemResult p.1 now uuid) acc) fun x hx => h x (by simp [hx])
    exact ⟨h2.1.trans h1.1, h2.2.1.trans h1.2.1, h2.2.2.trans h1.2.2⟩

/-- C10: a conflict outcome increments neither the synced nor the failed
counter and appends no error entry; consequently a cycle over a non-empty
queue in which every response item is a conflict carrying resolved data
returns success true with zero synced and zero failed items, so the counts
of a cycle result need not sum to the number of snapshot entries. -/
theorem C10_conflict_counts_neutral :
    (∀ (batch : List QueueItem) (now : Nat) (uuid : Nat → String) (acc : CycleAcc)
        (r : ItemResult), r.status = OutcomeStatus.conflict →
      (processItemResult batch now uuid acc r).synced = acc.synced ∧
      (processItemResult batch now uuid acc r).failed = acc.failed ∧
      (processItemResult batch now uuid acc r).errors = acc.errors) ∧
    (∀ (st : SyncState) (responses : List (Except String (List ItemResult)))
        (batchSize now : Nat) (uuid : Nat → String),
      st.queue ≠ [] →
      (∀ p ∈ (partition batchSize st.queue).zip responses,
        ∃ rs, p.2 = Except.ok rs ∧
          ∀ r ∈ rs, r.status = OutcomeStatus.conflict ∧ ∃ rd, r.resolved_data = some rd) →
      (sync st true responses batchSize now uuid).2.1
        = { success := true, synced_items := 0, failed_items := 0, errors := [] }) := by
  constructor
  · exact fun batch now uuid acc r h =>
      processItemResult_conflict_counters batch now uuid acc r h
  · intro st responses batchSize now uuid hne hall
    have hfold := foldl_batches_conflict now uuid
      ((partition batchSize st.queue).zip responses)
      { state := st, uuidCtr := 0, synced := 0, failed := 0, errors := [], ledger := [] }
      (fun p hp => by
        obtain ⟨rs, hok, hconf⟩ := hall p hp
        exact ⟨rs, hok, fun r hr => (hconf r hr).1⟩)
    simp only [sync]
    rw [if_pos trivial, if_neg hne]
    obtain ⟨h1, h2, h3⟩ := hfold
    simp only at h1 h2 h3
    simp [h1, h2, h3]

/-- Witness for C10: a one-entry queue whose only outcome is a conflict
with resolved data yields success true and zero counts. -/
theorem C10_witness :
    (sync exState true [Except.ok [exConflictResult]] 10 99 (fun _ => "u")).2.1
      = { success := true, synced_items := 0, failed_items := 0, errors := [] } :=
  C10_conflict_counts_neutral.2 exState [Except.ok [exConflictResult]] 10 99 (fun _ => "u")
    (by simp [exState, exEntryA])
    (by
      intro p hp
      rw [show (partition 10 exState.queue).zip [Except.ok [exConflictResult]]
          = [([exEntryA], Except.ok [exConflictResult])] from rfl] at hp
      simp only [List.mem_singleton] at hp
      subst hp
      exact ⟨[exConflictResult], rfl, by
        intro r hr
        simp only [List.mem_singleton] at hr
        subst hr
        exact ⟨rfl, ⟨exRemoteTask, rfl⟩⟩⟩)

end SyncEngine
